import Mathlib

/-!
Shallow embedding of `agent/collector/metrics.go` (package `collector`):
the Prometheus metrics-snapshot collection pipeline.

Remote interaction is modelled by an explicit `SSHCollectingAgent` record of
(deterministic) response functions, and every operation returns, next to its
Go result value, the trace of external events it performs (remote commands,
directory transfers, log emissions), in source order.  Time (`time.Time`
values compared with `After`/`Before`) is modelled by the instant's value in
nanoseconds since the Unix epoch, as an unbounded `Int`; this is exact for
every `time.Unix(sec, nsec)` instant the code builds.  `encoding/json`
unmarshalling (an external standard-library call) is abstracted as a codec
oracle from the raw output string to the decoded structure or a parse error.
-/

/-- Outcome of one remote command: captured standard output and standard
error streams (Go `*bytes.Buffer`s rendered as strings). -/
structure ExecResult where
  sout : String
  serr : String
  deriving DecidableEq, Repr

/-- The Remote Agent interface consumed by the collector (Go
`SSHCollectingAgent`): `connect` yields `some err` on a transport failure,
`executeCommand` yields either a transport error or the two output streams,
`receiveDir` yields `some err` on a transfer failure. -/
structure SSHCollectingAgent where
  host : String
  connect : Option String
  executeCommand : String → Except String ExecResult
  receiveDir : String → String → Option String

/-- One observable external action of a collection run. -/
inductive Event where
  | connect
  | execCmd (cmd : String)
  | receiveDir (src dest : String)
  | logInfo (msg : String)
  | logWarn (msg : String)
  | logError (msg : String)
  deriving DecidableEq, Repr

/- Constants of `metrics.go`; the `fmt.Sprintf` templates become functions
from the interpolated arguments to the command string. -/

def prometheusSnapshotSuccess : String := "success"

def prometheusSnapshotFolder : String := "snapshots"

def prometheusCreateSnapshotTemplate (port : Int) : String :=
  "curl -s -XPOST http://localhost:" ++ toString port ++ "/api/v1/admin/tsdb/snapshot"

def prometheusRemoveResourceTemplate (path : String) : String :=
  "rm -rf " ++ path

def temporalSnapshotTarballPath : String := "/tmp/InstaclustrCollection.tar"

def createSnapshotTarballTemplate (dest src : String) : String :=
  "tar -cf " ++ dest ++ " -C " ++ src ++ " ."

def getSnapshotBlockListTemplate (src : String) : String :=
  "ls -d " ++ src ++ "/*/"

def getSnapshotBlockMetadataTemplate (src : String) : String :=
  "cat " ++ src ++ "/meta.json"

/-- Go `PrometheusSettings`: Prometheus admin port and data-root path. -/
structure PrometheusSettings where
  port : Int
  dataPath : String
  deriving DecidableEq, Repr

/-- Go `MetricsCollectorSettings`. -/
structure MetricsCollectorSettings where
  prometheus : PrometheusSettings
  copyCompressed : Bool
  deriving DecidableEq, Repr

/-- Go `MetricsCollectorDefaultSettings()`. -/
def MetricsCollectorDefaultSettings : MetricsCollectorSettings :=
  ⟨⟨9090, "/var/data"⟩, true⟩

/-- Go `MetricsCollector`: settings, local destination root `Path`, and the
requested window bounds `TimestampFrom`/`TimestampTo` as UTC instants in
nanoseconds since the epoch. -/
structure MetricsCollector where
  settings : MetricsCollectorSettings
  path : String
  timestampFrom : Int
  timestampTo : Int
  deriving DecidableEq, Repr

/-- Go `t.After(u)` on `time.Time`, on instants in nanoseconds. -/
def timeAfter (t u : Int) : Bool := t > u

/-- Go `t.Before(u)` on `time.Time`, on instants in nanoseconds. -/
def timeBefore (t u : Int) : Bool := t < u

/-- Nested `Data` object of the snapshot-creation JSON response. -/
structure PrometheusSnapshotResponseData where
  name : String
  deriving DecidableEq, Repr

/-- Go `PrometheusSnapshotResponse` (local type inside `createSnapshot`). -/
structure PrometheusSnapshotResponse where
  status : String
  data : PrometheusSnapshotResponseData
  error : String
  deriving DecidableEq, Repr

/-- `Stats` object of a block's `meta.json`. -/
structure BlockStats where
  numSamples : Nat
  numSeries : Nat
  numChunks : Nat
  deriving DecidableEq, Repr

/-- Go `blockMetadata`: decoded `meta.json` of one snapshot block. -/
structure blockMetadata where
  ulid : String
  version : Int
  minTime : Int
  maxTime : Int
  stats : BlockStats
  deriving DecidableEq, Repr

/-- Behaviour of the external `encoding/json.Unmarshal` calls, abstracted as
an oracle per target type: given the raw standard-output string, either the
decoded value or the parse-error text. -/
structure JsonCodec where
  unmarshalSnapshotResponse : String → Except String PrometheusSnapshotResponse
  unmarshalBlockMetadata : String → Except String blockMetadata

/-- Go standard library `path/filepath.Join`: joins the non-empty elements
with `/`.  (`Join` additionally runs `Clean` on the result, which is the
identity on the already-clean paths this pipeline builds; `Clean` is not
modelled.)  In particular an empty final element is dropped, so joining a
directory with the empty string yields the directory itself. -/
def filepathJoin (elems : List String) : String :=
  String.intercalate "/" (elems.filter (fun e => e ≠ ""))

/-- Go standard library `strings.Fields`: splits around runs of whitespace. -/
def stringFields (s : String) : List String :=
  (s.split (fun c => c.isWhitespace)).filter (fun t => t ≠ "")

/-- Go `time.Unix(ms/1000, (ms%1000)*1000000).UTC()` where `ms` is an
`int64` of epoch milliseconds, as the instant's nanoseconds since the epoch;
Go `/` and `%` on `int64` truncate toward zero (`Int.tdiv`/`Int.tmod`). -/
def blockTimestamp (ms : Int) : Int :=
  (ms.tdiv 1000) * 1000000000 + (ms.tmod 1000) * 1000000

/-- Go `(collector *MetricsCollector) createSnapshot`. -/
def createSnapshot (c : MetricsCollector) (codec : JsonCodec)
    (agent : SSHCollectingAgent) : Except String String × List Event :=
  let cmd := prometheusCreateSnapshotTemplate c.settings.prometheus.port
  match agent.executeCommand cmd with
  | .error e => (.error e, [.execCmd cmd])
  | .ok r =>
    if r.serr.length > 0 then
      (.error ("Failed to create prometheus snapshot: " ++ r.serr), [.execCmd cmd])
    else
      match codec.unmarshalSnapshotResponse r.sout with
      | .error e =>
        (.error ("Failed to unmarshal snapshot command output (" ++ e ++ ")"),
         [.execCmd cmd])
      | .ok response =>
        if response.status ≠ prometheusSnapshotSuccess then
          (.error ("Failed to create prometheus snapshot (status: "
              ++ response.status ++ " '" ++ response.error ++ "')"),
           [.execCmd cmd])
        else
          (.ok response.data.name, [.execCmd cmd])

/-- Go `getBlockList`. -/
def getBlockList (agent : SSHCollectingAgent) (src : String) :
    Except String (List String) × List Event :=
  let cmd := getSnapshotBlockListTemplate src
  match agent.executeCommand cmd with
  | .error e => (.error e, [.execCmd cmd])
  | .ok r =>
    if r.serr.length > 0 then
      (.error ("Failed to get block list of prometheus snapshot: " ++ r.serr),
       [.execCmd cmd])
    else
      (.ok (stringFields r.sout), [.execCmd cmd])

/-- Go `getBlockMetadata`. -/
def getBlockMetadata (codec : JsonCodec) (agent : SSHCollectingAgent)
    (src : String) : Except String blockMetadata × List Event :=
  let cmd := getSnapshotBlockMetadataTemplate src
  match agent.executeCommand cmd with
  | .error e => (.error e, [.execCmd cmd])
  | .ok r =>
    if r.serr.length > 0 then
      (.error ("Failed to get block metadata: " ++ r.serr), [.execCmd cmd])
    else
      match codec.unmarshalBlockMetadata r.sout with
      | .error e =>
        (.error ("Failed to unmarshal block metadata (" ++ e ++ ")"), [.execCmd cmd])
      | .ok metadata => (.ok metadata, [.execCmd cmd])

/-- Go `(collector *MetricsCollector) tarballSnapshot`. -/
def tarballSnapshot (agent : SSHCollectingAgent) (src dest : String) :
    Except String Unit × List Event :=
  let cmd := createSnapshotTarballTemplate dest src
  match agent.executeCommand cmd with
  | .error e => (.error e, [.execCmd cmd])
  | .ok r =>
    if r.serr.length > 0 then
      (.error ("Failed to create snapshot tarball: " ++ r.serr), [.execCmd cmd])
    else
      (.ok (), [.execCmd cmd])

/-- Go `(collector *MetricsCollector) downloadSnapshot`. -/
def downloadSnapshot (agent : SSHCollectingAgent) (src dest : String) :
    Except String Unit × List Event :=
  match agent.receiveDir src dest with
  | some e => (.error ("Failed to receive snapshot (" ++ e ++ ")"), [.receiveDir src dest])
  | none => (.ok (), [.receiveDir src dest])

/-- Go `(collector *MetricsCollector) removeResource`.  Note: the source
discards both output streams (`_, _, err := agent.ExecuteCommand(...)`) and
only the transport error is checked. -/
def removeResource (agent : SSHCollectingAgent) (path : String) :
    Except String Unit × List Event :=
  let cmd := prometheusRemoveResourceTemplate path
  match agent.executeCommand cmd with
  | .error e =>
    (.error ("Failed to remove resource '" ++ path ++ "' (" ++ e ++ ")"), [.execCmd cmd])
  | .ok _ => (.ok (), [.execCmd cmd])

/-- Body of the `for index, block := range blocks` loop of Go
`lightenSnapshot`: the events one block's evaluation emits (the loop body
produces no value and cannot abort the loop). -/
def lightenBlock (c : MetricsCollector) (codec : JsonCodec)
    (agent : SSHCollectingAgent) (total index : Nat) (block : String) :
    List Event :=
  match getBlockMetadata codec agent block with
  | (.error e, ev) => ev ++ [.logWarn ("Ignoring block (" ++ block ++ "): " ++ e)]
  | (.ok metadata, ev) =>
    if metadata.version ≠ 1 then
      ev ++ [.logWarn ("Ignoring block (" ++ block ++ "): version #"
          ++ toString metadata.version ++ " unsupported")]
    else
      let blockMinTimestamp := blockTimestamp metadata.minTime
      let blockMaxTimestamp := blockTimestamp metadata.maxTime
      let fallsIntoTheSelectedTimeRange :=
        (timeAfter blockMinTimestamp c.timestampFrom
            || timeAfter blockMaxTimestamp c.timestampFrom)
          && (timeBefore blockMinTimestamp c.timestampTo
            || timeBefore blockMaxTimestamp c.timestampTo)
      let logMessage :=
        if fallsIntoTheSelectedTimeRange then "falls into the time span"
        else "will be skipped"
      let evLog := ev ++ [Event.logInfo ("Block " ++ toString (index + 1) ++ "/"
          ++ toString total ++ " " ++ metadata.ulid ++ "  "
          ++ toString blockMinTimestamp ++ " .. " ++ toString blockMaxTimestamp
          ++ ": " ++ logMessage)]
      if fallsIntoTheSelectedTimeRange then evLog
      else
        match removeResource agent block with
        | (.error e, ev2) =>
          evLog ++ ev2 ++ [.logWarn ("Failed to drop snapshot block: " ++ e)]
        | (.ok _, ev2) => evLog ++ ev2

/-- The loop of Go `lightenSnapshot` over the listed blocks, carrying the
running `index`. -/
def lightenBlocks (c : MetricsCollector) (codec : JsonCodec)
    (agent : SSHCollectingAgent) (total : Nat) :
    Nat → List String → List Event
  | _, [] => []
  | index, block :: rest =>
    lightenBlock c codec agent total index block
      ++ lightenBlocks c codec agent total (index + 1) rest

/-- Go `(collector *MetricsCollector) lightenSnapshot`. -/
def lightenSnapshot (c : MetricsCollector) (codec : JsonCodec)
    (agent : SSHCollectingAgent) (src : String) :
    Except String Unit × List Event :=
  match getBlockList agent src with
  | (.error e, ev) => (.error e, ev)
  | (.ok blocks, ev) =>
    (.ok (), ev ++ lightenBlocks c codec agent blocks.length 0 blocks)

/-- Go `Collect` line 82: the remote snapshot directory
`<data-root>/snapshots/<name>`. -/
def snapshotSrcPath (c : MetricsCollector) (snapshot : String) : String :=
  filepathJoin [c.settings.prometheus.dataPath, prometheusSnapshotFolder, snapshot]

/-- The lightening step as run by Go `Collect` (lines 84-91): its error is
only logged as a warning, so for the rest of the run only its event trace
remains. -/
def lightenPhaseEvents (c : MetricsCollector) (codec : JsonCodec)
    (agent : SSHCollectingAgent) (src : String) : List Event :=
  match lightenSnapshot c codec agent src with
  | (.error e, ev) => ev ++ [.logWarn ("Failed to lighten snapshot: " ++ e)]
  | (.ok _, ev) => ev

/-- The `if collector.Settings.CopyCompressed` body of Go `Collect`
(lines 93-116): archive the snapshot, always attempt removal of the original,
return the archive error if any, otherwise the new resource name and
transfer path. -/
def collectArchive (c : MetricsCollector) (agent : SSHCollectingAgent)
    (src : String) : Except String (String × String) × List Event :=
  if c.settings.copyCompressed then
    let tb := tarballSnapshot agent src temporalSnapshotTarballPath
    let evt := [Event.logInfo "Creating snapshot tarball..."] ++ tb.2
      ++ (match tb.1 with
          | .error e => [Event.logError e]
          | .ok _ => [Event.logInfo "Creating snapshot tarball  OK"])
    let rm := removeResource agent src
    let evr := evt ++ [Event.logInfo "Cleanup snapshot..."] ++ rm.2
      ++ (match rm.1 with
          | .error e => [Event.logError e]
          | .ok _ => [Event.logInfo "Cleanup snapshot  OK"])
    match tb.1 with
    | .error e => (.error e, evr)
    | .ok _ => (.ok ("snapshot tarball", temporalSnapshotTarballPath), evr)
  else
    (.ok ("snapshot", src), [])

/-- The tail of Go `Collect` (lines 118-137): download the transfer
resource, then remove it remotely; only the removal failure is returned. -/
def collectTransfer (c : MetricsCollector) (agent : SSHCollectingAgent)
    (resourceName src : String) : Except String Unit × List Event :=
  let dest := filepathJoin [c.path, "snapshot"]
  let dl := downloadSnapshot agent src dest
  let evd := [Event.logInfo "Downloading snapshot..."] ++ dl.2
    ++ (match dl.1 with
        | .error e => [Event.logError e]
        | .ok _ => [Event.logInfo "Downloading snapshot  OK"])
  let evr := evd ++ [Event.logInfo ("Cleanup " ++ resourceName ++ "...")]
  match removeResource agent src with
  | (.error e, ev) => (.error e, evr ++ ev ++ [.logError e])
  | (.ok _, ev) =>
    (.ok (), evr ++ ev ++ [.logInfo ("Cleanup " ++ resourceName ++ "  OK"),
        .logInfo "Metrics collecting completed"])

/-- Go `(collector *MetricsCollector) Collect`. -/
def Collect (c : MetricsCollector) (codec : JsonCodec)
    (agent : SSHCollectingAgent) : Except String Unit × List Event :=
  let ev0 : List Event := [.logInfo "Metrics collecting started"]
  match agent.connect with
  | some err => (.error err, ev0 ++ [.connect, .logError err])
  | none =>
    let ev1 := ev0 ++ [Event.connect, .logInfo "Creating snapshot..."]
    let cs := createSnapshot c codec agent
    match cs.1 with
    | .error e => (.error e, ev1 ++ cs.2 ++ [.logError e])
    | .ok snapshot =>
      let src := snapshotSrcPath c snapshot
      let ev2 := ev1 ++ cs.2 ++ [Event.logInfo "Creating snapshot  OK",
          .logInfo ("Snapshot name: " ++ snapshot),
          .logInfo "Lightening snapshot..."]
        ++ lightenPhaseEvents c codec agent src
        ++ [Event.logInfo "Lightening snapshot  OK"]
      let arch := collectArchive c agent src
      match arch.1 with
      | .error e => (.error e, ev2 ++ arch.2)
      | .ok rn =>
        let tr := collectTransfer c agent rn.1 rn.2
        (tr.1, ev2 ++ arch.2 ++ tr.2)

/-!
Concrete test fixtures: deterministic agents, codecs and collectors used to
instantiate the theorems below on closed inputs.
-/

/-- Snapshot directory of the documented two-block scenario. -/
def snapRoot : String := "/var/data/snapshots/20210101T000000Z-abc"

/-- Block A of the scenario (`version=1`, `minTime=0`, `maxTime=500`). -/
def blockAPath : String := snapRoot ++ "/01A/"

/-- Block B of the scenario (`version=1`, `minTime=10000`, `maxTime=20000`). -/
def blockBPath : String := snapRoot ++ "/01B/"

/-- A block with an unsupported metadata format version. -/
def blockV2Path : String := snapRoot ++ "/01C/"

def metaA : blockMetadata := ⟨"01A", 1, 0, 500, ⟨0, 0, 0⟩⟩

def metaB : blockMetadata := ⟨"01B", 1, 10000, 20000, ⟨0, 0, 0⟩⟩

def metaV2 : blockMetadata := ⟨"01C", 2, 0, 500, ⟨0, 0, 0⟩⟩

/-- Codec for the two-block scenario: block metadata keyed by the raw
output of the corresponding `cat` command. -/
def scenarioCodec : JsonCodec :=
  ⟨fun _ => .error "unexpected end of JSON input",
   fun s =>
     if s = "metaA" then .ok metaA
     else if s = "metaB" then .ok metaB
     else if s = "metaV2" then .ok metaV2
     else .error "invalid character"⟩

/-- Agent for the two-block scenario: serves the metadata of the three
fixture blocks, succeeds silently on everything else. -/
def scenarioAgent : SSHCollectingAgent :=
  ⟨"node-scenario", none,
   fun cmd =>
     if cmd = getSnapshotBlockMetadataTemplate blockAPath then .ok ⟨"metaA", ""⟩
     else if cmd = getSnapshotBlockMetadataTemplate blockBPath then .ok ⟨"metaB", ""⟩
     else if cmd = getSnapshotBlockMetadataTemplate blockV2Path then .ok ⟨"metaV2", ""⟩
     else .ok ⟨"", ""⟩,
   fun _ _ => none⟩

/-- Collector with archiving disabled and the documented window
`[1000, 15000]` in epoch milliseconds (here in nanoseconds). -/
def collectorNC : MetricsCollector :=
  ⟨⟨⟨9090, "/var/data"⟩, false⟩, "/local/out", 1000000000, 15000000000⟩

/-- Collector with archiving enabled (default settings) and the same
window as `collectorNC`. -/
def collectorCC : MetricsCollector :=
  ⟨MetricsCollectorDefaultSettings, "/local/out", 1000000000, 15000000000⟩

/-- Codec that decodes the fixture snapshot responses and block metadata. -/
def okCodec : JsonCodec :=
  ⟨fun s =>
     if s = "resp-ok" then .ok ⟨"success", ⟨"snap-1"⟩, ""⟩
     else if s = "resp-empty" then .ok ⟨"success", ⟨""⟩, ""⟩
     else .error "unexpected end of JSON input",
   fun _ => .error "invalid character"⟩

/-- Agent on which snapshot creation succeeds with name `snap-1`, every
command succeeds silently, but the directory transfer fails. -/
def okAgent : SSHCollectingAgent :=
  ⟨"node-ok", none,
   fun cmd =>
     if cmd = prometheusCreateSnapshotTemplate 9090 then .ok ⟨"resp-ok", ""⟩
     else .ok ⟨"", ""⟩,
   fun _ _ => some "connection lost"⟩

/-- Agent on which the final removal of the snapshot directory fails with a
transport error. -/
def rmFailAgent : SSHCollectingAgent :=
  ⟨"node-rmfail", none,
   fun cmd =>
     if cmd = prometheusCreateSnapshotTemplate 9090 then .ok ⟨"resp-ok", ""⟩
     else if cmd = prometheusRemoveResourceTemplate "/var/data/snapshots/snap-1" then
       .error "connection reset"
     else .ok ⟨"", ""⟩,
   fun _ _ => none⟩

/-- Agent on which the tarball command writes to standard error. -/
def archFailAgent : SSHCollectingAgent :=
  ⟨"node-archfail", none,
   fun cmd =>
     if cmd = prometheusCreateSnapshotTemplate 9090 then .ok ⟨"resp-ok", ""⟩
     else if cmd = createSnapshotTarballTemplate temporalSnapshotTarballPath
         "/var/data/snapshots/snap-1" then .ok ⟨"", "tar: Permission denied"⟩
     else .ok ⟨"", ""⟩,
   fun _ _ => none⟩

/-- Agent whose snapshot-creation response carries an empty snapshot name. -/
def emptyNameAgent : SSHCollectingAgent :=
  ⟨"node-empty", none,
   fun cmd =>
     if cmd = prometheusCreateSnapshotTemplate 9090 then .ok ⟨"resp-empty", ""⟩
     else .ok ⟨"", ""⟩,
   fun _ _ => none⟩

/-- Agent whose every command succeeds at the transport level but writes to
standard error. -/
def agentStderrOnly : SSHCollectingAgent :=
  ⟨"node-stderr", none, fun _ => .ok ⟨"", "rm: permission denied"⟩, fun _ _ => none⟩

/-- Agent whose every command fails with a transport error. -/
def agentTransportFail : SSHCollectingAgent :=
  ⟨"node-transport", none, fun _ => .error "connection reset", fun _ _ => none⟩

/-- The documented rejection response of the snapshot-creation API. -/
def rejectResponseText : String :=
  "\x7b\"status\":\"error\",\"error\":\"out of space\"\x7d"

/-- Codec that decodes exactly the rejection response. -/
def rejectCodec : JsonCodec :=
  ⟨fun s =>
     if s = rejectResponseText then .ok ⟨"error", ⟨""⟩, "out of space"⟩
     else .error "unexpected end of JSON input",
   fun _ => .error "unexpected end of JSON input"⟩

/-- Agent whose snapshot-creation command returns the rejection response. -/
def rejectAgent : SSHCollectingAgent :=
  ⟨"node-reject", none,
   fun cmd =>
     if cmd = prometheusCreateSnapshotTemplate 9090 then .ok ⟨rejectResponseText, ""⟩
     else .ok ⟨"", ""⟩,
   fun _ _ => none⟩

def rejectCollector : MetricsCollector :=
  ⟨MetricsCollectorDefaultSettings, "/local/out", 0, 0⟩

/-! Helper lemmas about the event traces of the primitive operations. -/

theorem createSnapshot_events (c : MetricsCollector) (codec : JsonCodec)
    (agent : SSHCollectingAgent) :
    (createSnapshot c codec agent).2
      = [.execCmd (prometheusCreateSnapshotTemplate c.settings.prometheus.port)] := by
  cases h : agent.executeCommand (prometheusCreateSnapshotTemplate c.settings.prometheus.port) with
  | error e => simp [createSnapshot, h]
  | ok r =>
    by_cases hs : r.serr.length > 0
    · simp [createSnapshot, h, hs]
    · cases hu : codec.unmarshalSnapshotResponse r.sout with
      | error e => simp [createSnapshot, h, hs, hu]
      | ok response =>
        by_cases hst : response.status = prometheusSnapshotSuccess
        · simp [createSnapshot, h, hs, hu, hst]
        · simp [createSnapshot, h, hs, hu, hst]

theorem getBlockList_events (agent : SSHCollectingAgent) (src : String) :
    (getBlockList agent src).2 = [.execCmd (getSnapshotBlockListTemplate src)] := by
  cases h : agent.executeCommand (getSnapshotBlockListTemplate src) with
  | error e => simp [getBlockList, h]
  | ok r =>
    by_cases hs : r.serr.length > 0
    · simp [getBlockList, h, hs]
    · simp [getBlockList, h, hs]

theorem getBlockMetadata_events (codec : JsonCodec) (agent : SSHCollectingAgent)
    (src : String) :
    (getBlockMetadata codec agent src).2
      = [.execCmd (getSnapshotBlockMetadataTemplate src)] := by
  cases h : agent.executeCommand (getSnapshotBlockMetadataTemplate src) with
  | error e => simp [getBlockMetadata, h]
  | ok r =>
    by_cases hs : r.serr.length > 0
    · simp [getBlockMetadata, h, hs]
    · cases hu : codec.unmarshalBlockMetadata r.sout with
      | error e => simp [getBlockMetadata, h, hs, hu]
      | ok metadata => simp [getBlockMetadata, h, hs, hu]

theorem removeResource_events (agent : SSHCollectingAgent) (path : String) :
    (removeResource agent path).2 = [.execCmd (prometheusRemoveResourceTemplate path)] := by
  cases h : agent.executeCommand (prometheusRemoveResourceTemplate path) with
  | error e => simp [removeResource, h]
  | ok r => simp [removeResource, h]

theorem tarballSnapshot_events (agent : SSHCollectingAgent) (src dest : String) :
    (tarballSnapshot agent src dest).2
      = [.execCmd (createSnapshotTarballTemplate dest src)] := by
  cases h : agent.executeCommand (createSnapshotTarballTemplate dest src) with
  | error e => simp [tarballSnapshot, h]
  | ok r =>
    by_cases hs : r.serr.length > 0
    · simp [tarballSnapshot, h, hs]
    · simp [tarballSnapshot, h, hs]

/-- The remove command for a block is never the metadata-read command for the
same block: the fixed parts have different lengths. -/
theorem removeCmd_ne_metadataCmd (b : String) :
    prometheusRemoveResourceTemplate b ≠ getSnapshotBlockMetadataTemplate b := by
  intro h
  have hl := congrArg String.length h
  simp only [prometheusRemoveResourceTemplate, getSnapshotBlockMetadataTemplate,
    String.length_append] at hl
  have h1 : ("rm -rf ").length = 7 := rfl
  have h2 : ("cat ").length = 4 := rfl
  have h3 : ("/meta.json").length = 10 := rfl
  omega

/-! Helper lemmas about the orchestrator's composition. -/

theorem collectArchive_disabled (c : MetricsCollector) (agent : SSHCollectingAgent)
    (src : String) (hcc : c.settings.copyCompressed = false) :
    collectArchive c agent src = (.ok ("snapshot", src), []) := by
  simp [collectArchive, hcc]

theorem collectArchive_enabled_err (c : MetricsCollector) (agent : SSHCollectingAgent)
    (src e : String) (hcc : c.settings.copyCompressed = true)
    (ht : (tarballSnapshot agent src temporalSnapshotTarballPath).1 = .error e) :
    (collectArchive c agent src).1 = .error e := by
  simp [collectArchive, hcc, ht]

theorem collectArchive_enabled_ok (c : MetricsCollector) (agent : SSHCollectingAgent)
    (src : String) (hcc : c.settings.copyCompressed = true)
    (ht : (tarballSnapshot agent src temporalSnapshotTarballPath).1 = .ok ()) :
    (collectArchive c agent src).1 = .ok ("snapshot tarball", temporalSnapshotTarballPath) := by
  simp [collectArchive, hcc, ht]

theorem collectArchive_enabled_remove_event (c : MetricsCollector)
    (agent : SSHCollectingAgent) (src : String)
    (hcc : c.settings.copyCompressed = true) :
    Event.execCmd (prometheusRemoveResourceTemplate src) ∈ (collectArchive c agent src).2 := by
  rcases ht : tarballSnapshot agent src temporalSnapshotTarballPath with ⟨tres, tev⟩
  rcases hr : removeResource agent src with ⟨rres, rev⟩
  have hrev : rev = [.execCmd (prometheusRemoveResourceTemplate src)] := by
    have h2 := congrArg Prod.snd hr
    rw [removeResource_events] at h2
    exact h2.symm
  subst hrev
  cases tres <;> cases rres <;> simp [collectArchive, hcc, ht, hr]

theorem collectTransfer_fst (c : MetricsCollector) (agent : SSHCollectingAgent)
    (rn src : String) :
    (collectTransfer c agent rn src).1 =
      (match (removeResource agent src).1 with
       | .error e => .error e
       | .ok _ => .ok ()) := by
  rcases hd : downloadSnapshot agent src (filepathJoin [c.path, "snapshot"]) with ⟨dres, dev⟩
  rcases hr : removeResource agent src with ⟨rres, rev⟩
  cases dres <;> cases rres <;> simp [collectTransfer, hd, hr]

theorem collectTransfer_receiveDir (c : MetricsCollector) (agent : SSHCollectingAgent)
    (rn src : String) :
    Event.receiveDir src (filepathJoin [c.path, "snapshot"]) ∈ (collectTransfer c agent rn src).2 ∧
    Event.execCmd (prometheusRemoveResourceTemplate src) ∈ (collectTransfer c agent rn src).2 ∧
    (∀ s d, Event.receiveDir s d ∈ (collectTransfer c agent rn src).2 →
      s = src ∧ d = filepathJoin [c.path, "snapshot"]) := by
  rcases hd : downloadSnapshot agent src (filepathJoin [c.path, "snapshot"]) with ⟨dres, dev⟩
  have hdev : dev = [.receiveDir src (filepathJoin [c.path, "snapshot"])] := by
    have h2 := congrArg Prod.snd hd
    unfold downloadSnapshot at h2
    cases h3 : agent.receiveDir src (filepathJoin [c.path, "snapshot"]) <;>
      rw [h3] at h2 <;> exact h2.symm
  subst hdev
  rcases hr : removeResource agent src with ⟨rres, rev⟩
  have hrev : rev = [.execCmd (prometheusRemoveResourceTemplate src)] := by
    have h2 := congrArg Prod.snd hr
    rw [removeResource_events] at h2
    exact h2.symm
  subst hrev
  refine ⟨?_, ?_, ?_⟩
  · cases dres <;> cases rres <;> simp [collectTransfer, hd, hr]
  · cases dres <;> cases rres <;> simp [collectTransfer, hd, hr]
  · intro s d hm
    cases dres <;> cases rres <;> simp [collectTransfer, hd, hr] at hm <;>
      exact ⟨hm.1, hm.2⟩

theorem Collect_result (c : MetricsCollector) (codec : JsonCodec)
    (agent : SSHCollectingAgent) (snap : String)
    (hc : agent.connect = none)
    (hs : (createSnapshot c codec agent).1 = .ok snap) :
    (Collect c codec agent).1 =
      (match (collectArchive c agent (snapshotSrcPath c snap)).1 with
       | .error e => .error e
       | .ok rn => (collectTransfer c agent rn.1 rn.2).1) := by
  rcases hcs : createSnapshot c codec agent with ⟨csr, csev⟩
  rw [hcs] at hs
  simp only at hs
  subst hs
  rcases harch : collectArchive c agent (snapshotSrcPath c snap) with ⟨ares, aev⟩
  cases ares with
  | error e => simp [Collect, hc, hcs, harch]
  | ok rn => simp [Collect, hc, hcs, harch]

theorem Collect_trace (c : MetricsCollector) (codec : JsonCodec)
    (agent : SSHCollectingAgent) (snap : String)
    (hc : agent.connect = none)
    (hs : (createSnapshot c codec agent).1 = .ok snap) :
    (Collect c codec agent).2 =
      [Event.logInfo "Metrics collecting started", .connect,
        .logInfo "Creating snapshot..."]
      ++ (createSnapshot c codec agent).2
      ++ [Event.logInfo "Creating snapshot  OK",
          .logInfo ("Snapshot name: " ++ snap), .logInfo "Lightening snapshot..."]
      ++ lightenPhaseEvents c codec agent (snapshotSrcPath c snap)
      ++ [Event.logInfo "Lightening snapshot  OK"]
      ++ (collectArchive c agent (snapshotSrcPath c snap)).2
      ++ (match (collectArchive c agent (snapshotSrcPath c snap)).1 with
          | .error _ => []
          | .ok rn => (collectTransfer c agent rn.1 rn.2).2) := by
  rcases hcs : createSnapshot c codec agent with ⟨csr, csev⟩
  rw [hcs] at hs
  simp only at hs
  subst hs
  rcases harch : collectArchive c agent (snapshotSrcPath c snap) with ⟨ares, aev⟩
  cases ares with
  | error e => simp [Collect, hc, hcs, harch]
  | ok rn => simp [Collect, hc, hcs, harch]

theorem lightenBlock_no_receiveDir (c : MetricsCollector) (codec : JsonCodec)
    (agent : SSHCollectingAgent) (total index : Nat) (block s d : String) :
    Event.receiveDir s d ∉ lightenBlock c codec agent total index block := by
  rcases hmd : getBlockMetadata codec agent block with ⟨res, ev⟩
  have hev : ev = [.execCmd (getSnapshotBlockMetadataTemplate block)] := by
    have h2 := congrArg Prod.snd hmd
    rw [getBlockMetadata_events] at h2
    exact h2.symm
  subst hev
  rcases hr : removeResource agent block with ⟨rres, rev⟩
  have hrev : rev = [.execCmd (prometheusRemoveResourceTemplate block)] := by
    have h2 := congrArg Prod.snd hr
    rw [removeResource_events] at h2
    exact h2.symm
  subst hrev
  unfold lightenBlock
  rw [hmd]
  cases res with
  | error e => simp
  | ok md =>
    by_cases hv : md.version = 1
    · simp only [hv, ne_eq, not_true_eq_false, if_false, ite_false]
      split
      · simp
      · rw [hr]
        cases rres <;> simp
    · simp [hv]

theorem lightenBlocks_no_receiveDir (c : MetricsCollector) (codec : JsonCodec)
    (agent : SSHCollectingAgent) (total : Nat) :
    ∀ (index : Nat) (blocks : List String) (s d : String),
      Event.receiveDir s d ∉ lightenBlocks c codec agent total index blocks := by
  intro index blocks
  induction blocks generalizing index with
  | nil => intro s d; simp [lightenBlocks]
  | cons b rest ih =>
    intro s d h
    rcases List.mem_append.mp h with h2 | h2
    · exact lightenBlock_no_receiveDir c codec agent total index b s d h2
    · exact ih (index + 1) s d h2

theorem lightenSnapshot_no_receiveDir (c : MetricsCollector) (codec : JsonCodec)
    (agent : SSHCollectingAgent) (src s d : String) :
    Event.receiveDir s d ∉ (lightenSnapshot c codec agent src).2 := by
  rcases hgl : getBlockList agent src with ⟨res, ev⟩
  have hev : ev = [.execCmd (getSnapshotBlockListTemplate src)] := by
    have h2 := congrArg Prod.snd hgl
    rw [getBlockList_events] at h2
    exact h2.symm
  subst hev
  unfold lightenSnapshot
  rw [hgl]
  cases res with
  | error e => simp
  | ok blocks =>
    intro h
    rcases List.mem_append.mp h with h2 | h2
    · simp at h2
    · exact lightenBlocks_no_receiveDir c codec agent blocks.length 0 blocks s d h2

theorem lightenPhaseEvents_no_receiveDir (c : MetricsCollector) (codec : JsonCodec)
    (agent : SSHCollectingAgent) (src s d : String) :
    Event.receiveDir s d ∉ lightenPhaseEvents c codec agent src := by
  rcases hls : lightenSnapshot c codec agent src with ⟨res, ev⟩
  have hev : Event.receiveDir s d ∉ ev := by
    have h2 := congrArg Prod.snd hls
    intro h
    exact lightenSnapshot_no_receiveDir c codec agent src s d (h2 ▸ h)
  unfold lightenPhaseEvents
  rw [hls]
  cases res with
  | error e =>
    intro h
    rcases List.mem_append.mp h with h2 | h2
    · exact hev h2
    · simp at h2
  | ok u => exact hev

theorem collectArchive_no_receiveDir (c : MetricsCollector)
    (agent : SSHCollectingAgent) (src s d : String) :
    Event.receiveDir s d ∉ (collectArchive c agent src).2 := by
  rcases ht : tarballSnapshot agent src temporalSnapshotTarballPath with ⟨tres, tev⟩
  have htev : tev = [.execCmd (createSnapshotTarballTemplate temporalSnapshotTarballPath src)] := by
    have h2 := congrArg Prod.snd ht
    rw [tarballSnapshot_events] at h2
    exact h2.symm
  subst htev
  rcases hr : removeResource agent src with ⟨rres, rev⟩
  have hrev : rev = [.execCmd (prometheusRemoveResourceTemplate src)] := by
    have h2 := congrArg Prod.snd hr
    rw [removeResource_events] at h2
    exact h2.symm
  subst hrev
  by_cases hcc : c.settings.copyCompressed
  · cases tres <;> cases rres <;> simp [collectArchive, hcc, ht, hr]
  · simp [collectArchive, hcc]

theorem createSnapshot_no_receiveDir (c : MetricsCollector) (codec : JsonCodec)
    (agent : SSHCollectingAgent) (s d : String) :
    Event.receiveDir s d ∉ (createSnapshot c codec agent).2 := by
  rw [createSnapshot_events]
  simp

theorem lightenSnapshot_listing_event (c : MetricsCollector) (codec : JsonCodec)
    (agent : SSHCollectingAgent) (src : String) :
    Event.execCmd (getSnapshotBlockListTemplate src) ∈ (lightenSnapshot c codec agent src).2 := by
  rcases hgl : getBlockList agent src with ⟨res, ev⟩
  have hev : ev = [.execCmd (getSnapshotBlockListTemplate src)] := by
    have h2 := congrArg Prod.snd hgl
    rw [getBlockList_events] at h2
    exact h2.symm
  subst hev
  unfold lightenSnapshot
  rw [hgl]
  cases res <;> simp

theorem lightenPhase_listing_event (c : MetricsCollector) (codec : JsonCodec)
    (agent : SSHCollectingAgent) (src : String) :
    Event.execCmd (getSnapshotBlockListTemplate src) ∈ lightenPhaseEvents c codec agent src := by
  have hmem := lightenSnapshot_listing_event c codec agent src
  rcases hls : lightenSnapshot c codec agent src with ⟨res, ev⟩
  rw [hls] at hmem
  unfold lightenPhaseEvents
  rw [hls]
  cases res with
  | error e => exact List.mem_append.mpr (Or.inl hmem)
  | ok u => exact hmem

/-! Claim theorems. -/

/-- Claim C1: for every block whose metadata reads and parses with
`formatVersion = 1`, the Time-Window Filter keeps the block — issues no
remove command for it — if and only if (a) the block's min or max timestamp
is strictly after `from`, and (b) its min or max timestamp is strictly
before `to`. -/
theorem lightenBlock_keeps_iff_overlap (c : MetricsCollector) (codec : JsonCodec)
    (agent : SSHCollectingAgent) (total index : Nat) (block : String)
    (md : blockMetadata) (ev : List Event)
    (hmd : getBlockMetadata codec agent block = (.ok md, ev))
    (hv : md.version = 1) :
    (Event.execCmd (prometheusRemoveResourceTemplate block) ∉
        lightenBlock c codec agent total index block)
      ↔ ((blockTimestamp md.minTime > c.timestampFrom
            ∨ blockTimestamp md.maxTime > c.timestampFrom)
          ∧ (blockTimestamp md.minTime < c.timestampTo
            ∨ blockTimestamp md.maxTime < c.timestampTo)) := by
  have hev : ev = [.execCmd (getSnapshotBlockMetadataTemplate block)] := by
    have h2 := congrArg Prod.snd hmd
    rw [getBlockMetadata_events] at h2
    exact h2.symm
  subst hev
  unfold lightenBlock
  rw [hmd]
  simp only [hv, ne_eq, not_true_eq_false, if_false, ite_false]
  split
  · rename_i hf
    simp only [timeAfter, timeBefore, Bool.and_eq_true, Bool.or_eq_true,
      decide_eq_true_eq] at hf
    refine iff_of_true ?_ hf
    intro hmem
    simp only [List.mem_append, List.mem_singleton, Event.execCmd.injEq] at hmem
    rcases hmem with h | h
    · exact removeCmd_ne_metadataCmd block h
    · exact Event.noConfusion h
  · rename_i hf
    simp only [timeAfter, timeBefore, Bool.and_eq_true, Bool.or_eq_true,
      decide_eq_true_eq] at hf
    refine iff_of_false ?_ hf
    rcases hr : removeResource agent block with ⟨res, ev2⟩
    have hev2 : ev2 = [.execCmd (prometheusRemoveResourceTemplate block)] := by
      have h2 := congrArg Prod.snd hr
      rw [removeResource_events] at h2
      exact h2.symm
    subst hev2
    intro hnotmem
    apply hnotmem
    cases res <;> simp

/-- Claim C1 witness: in the documented scenario with window
`[1000, 15000]` ms, Block A (`minTime=0`, `maxTime=500`) is removed and
Block B (`minTime=10000`, `maxTime=20000`) is kept. -/
theorem lightenBlock_keeps_iff_overlap_witness :
    Event.execCmd (prometheusRemoveResourceTemplate blockAPath)
        ∈ lightenBlock collectorNC scenarioCodec scenarioAgent 2 0 blockAPath ∧
    Event.execCmd (prometheusRemoveResourceTemplate blockBPath)
        ∉ lightenBlock collectorNC scenarioCodec scenarioAgent 2 1 blockBPath := by
  constructor
  · by_contra hA
    have h := (lightenBlock_keeps_iff_overlap collectorNC scenarioCodec scenarioAgent 2 0
        blockAPath metaA [.execCmd (getSnapshotBlockMetadataTemplate blockAPath)]
        (by rfl) (by rfl)).mp hA
    revert h
    decide
  · exact (lightenBlock_keeps_iff_overlap collectorNC scenarioCodec scenarioAgent 2 1
        blockBPath metaB [.execCmd (getSnapshotBlockMetadataTemplate blockBPath)]
        (by rfl) (by rfl)).mpr (by decide)

/-- Claim C7: a block whose metadata parses but whose `formatVersion` is not
1 is never removed by the filter, whatever its time range and the window: it
is skipped with a warning naming the block and the version. -/
theorem lightenBlock_unsupported_version (c : MetricsCollector) (codec : JsonCodec)
    (agent : SSHCollectingAgent) (total index : Nat) (block : String)
    (md : blockMetadata) (ev : List Event)
    (hmd : getBlockMetadata codec agent block = (.ok md, ev))
    (hv : md.version ≠ 1) :
    Event.execCmd (prometheusRemoveResourceTemplate block) ∉
        lightenBlock c codec agent total index block ∧
    Event.logWarn ("Ignoring block (" ++ block ++ "): version #"
        ++ toString md.version ++ " unsupported")
      ∈ lightenBlock c codec agent total index block := by
  have hev : ev = [.execCmd (getSnapshotBlockMetadataTemplate block)] := by
    have h2 := congrArg Prod.snd hmd
    rw [getBlockMetadata_events] at h2
    exact h2.symm
  subst hev
  unfold lightenBlock
  rw [hmd]
  simp only [ne_eq, hv, not_false_eq_true, if_true, ite_true]
  constructor
  · intro hmem
    simp only [List.mem_append, List.mem_singleton, Event.execCmd.injEq] at hmem
    rcases hmem with h | h
    · exact removeCmd_ne_metadataCmd block h
    · exact Event.noConfusion h
  · simp

/-- Claim C7 witness: a version-2 block with a time range entirely outside
the window is still not removed, only warned about. -/
theorem lightenBlock_unsupported_version_witness :
    Event.execCmd (prometheusRemoveResourceTemplate blockV2Path)
        ∉ lightenBlock collectorNC scenarioCodec scenarioAgent 3 2 blockV2Path ∧
    Event.logWarn ("Ignoring block (" ++ blockV2Path ++ "): version #"
        ++ toString (2 : Int) ++ " unsupported")
      ∈ lightenBlock collectorNC scenarioCodec scenarioAgent 3 2 blockV2Path :=
  lightenBlock_unsupported_version collectorNC scenarioCodec scenarioAgent 3 2
    blockV2Path metaV2 [.execCmd (getSnapshotBlockMetadataTemplate blockV2Path)]
    (by rfl) (by decide)

/-- Claim C4: when listing the snapshot's block subdirectories succeeds,
`lightenSnapshot` returns success for any per-block outcomes; the only
error it can itself return is the listing failure; and a metadata read or
parse failure for a block produces exactly a warning naming the block and
skips it (no remove, no abort). -/
theorem lightenSnapshot_error_contract :
    (∀ (c : MetricsCollector) (codec : JsonCodec) (agent : SSHCollectingAgent)
        (src : String) (blocks : List String) (ev : List Event),
      getBlockList agent src = (.ok blocks, ev) →
      (lightenSnapshot c codec agent src).1 = .ok ()) ∧
    (∀ (c : MetricsCollector) (codec : JsonCodec) (agent : SSHCollectingAgent)
        (src e : String),
      (lightenSnapshot c codec agent src).1 = .error e →
      (getBlockList agent src).1 = .error e) ∧
    (∀ (c : MetricsCollector) (codec : JsonCodec) (agent : SSHCollectingAgent)
        (total index : Nat) (block e : String) (ev : List Event),
      getBlockMetadata codec agent block = (.error e, ev) →
      lightenBlock c codec agent total index block
        = ev ++ [.logWarn ("Ignoring block (" ++ block ++ "): " ++ e)]) := by
  refine ⟨?_, ?_, ?_⟩
  · intro c codec agent src blocks ev h
    unfold lightenSnapshot
    rw [h]
  · intro c codec agent src e h
    rcases hgl : getBlockList agent src with ⟨res, ev⟩
    unfold lightenSnapshot at h
    rw [hgl] at h
    cases res with
    | error e2 => simp only at h ⊢; simp at h; rw [h]
    | ok blocks => simp at h
  · intro c codec agent total index block e ev h
    unfold lightenBlock
    rw [h]

/-- Claim C4 witness: a successful listing yields success; a failed listing
is the error `lightenSnapshot` reports; a block whose metadata does not
parse is skipped with exactly one warning. -/
theorem lightenSnapshot_error_contract_witness :
    (lightenSnapshot collectorNC okCodec okAgent (snapshotSrcPath collectorNC "snap-1")).1
        = .ok () ∧
    (getBlockList agentTransportFail "/var/data/snapshots/snap-1").1
        = .error "connection reset" ∧
    lightenBlock collectorNC okCodec okAgent 1 0 "/var/data/snapshots/snap-1/blk/"
      = [.execCmd (getSnapshotBlockMetadataTemplate "/var/data/snapshots/snap-1/blk/")]
        ++ [.logWarn ("Ignoring block (" ++ "/var/data/snapshots/snap-1/blk/" ++ "): "
            ++ "Failed to unmarshal block metadata (invalid character)")] := by
  refine ⟨?_, ?_, ?_⟩
  · exact lightenSnapshot_error_contract.1 collectorNC okCodec okAgent
      (snapshotSrcPath collectorNC "snap-1") (stringFields "")
      [.execCmd (getSnapshotBlockListTemplate (snapshotSrcPath collectorNC "snap-1"))]
      (by rfl)
  · exact lightenSnapshot_error_contract.2.1 collectorNC okCodec agentTransportFail
      "/var/data/snapshots/snap-1" "connection reset" (by rfl)
  · exact lightenSnapshot_error_contract.2.2 collectorNC okCodec okAgent 1 0
      "/var/data/snapshots/snap-1/blk/"
      "Failed to unmarshal block metadata (invalid character)"
      [.execCmd (getSnapshotBlockMetadataTemplate "/var/data/snapshots/snap-1/blk/")]
      (by rfl)

/-- Claim C2: with archiving enabled, if the archive step fails then
`Collect` returns that archive error and the download step is never
executed (no directory transfer appears in the run's trace); and the
removal of the original snapshot directory is attempted — its command is
issued — regardless of the archive outcome, a removal failure changing
nothing (the conclusion holds for every agent behaviour on the remove
command). -/
theorem Collect_archive_failure_contract (c : MetricsCollector) (codec : JsonCodec)
    (agent : SSHCollectingAgent) (snap : String)
    (hc : agent.connect = none)
    (hs : (createSnapshot c codec agent).1 = .ok snap)
    (hcc : c.settings.copyCompressed = true) :
    (∀ e, (tarballSnapshot agent (snapshotSrcPath c snap) temporalSnapshotTarballPath).1
          = .error e →
      (Collect c codec agent).1 = .error e ∧
      ∀ s d, Event.receiveDir s d ∉ (Collect c codec agent).2) ∧
    Event.execCmd (prometheusRemoveResourceTemplate (snapshotSrcPath c snap)) ∈
      (Collect c codec agent).2 := by
  constructor
  · intro e ht
    have harch := collectArchive_enabled_err c agent (snapshotSrcPath c snap) e hcc ht
    constructor
    · rw [Collect_result c codec agent snap hc hs, harch]
    · intro s d h
      rw [Collect_trace c codec agent snap hc hs, harch] at h
      have h1 := createSnapshot_no_receiveDir c codec agent s d
      have h2 := lightenPhaseEvents_no_receiveDir c codec agent (snapshotSrcPath c snap) s d
      have h3 := collectArchive_no_receiveDir c agent (snapshotSrcPath c snap) s d
      simp at h
      tauto
  · have hm := collectArchive_enabled_remove_event c agent (snapshotSrcPath c snap) hcc
    rw [Collect_trace c codec agent snap hc hs]
    simp only [List.mem_append]
    tauto

/-- Claim C2 witness: on an agent whose `tar` command writes to standard
error, the run returns the archive error, performs no directory transfer to
the local destination, and still issues the removal of the original
snapshot directory. -/
theorem Collect_archive_failure_contract_witness :
    (Collect collectorCC okCodec archFailAgent).1
        = .error ("Failed to create snapshot tarball: " ++ "tar: Permission denied") ∧
    Event.receiveDir temporalSnapshotTarballPath "/local/out/snapshot"
        ∉ (Collect collectorCC okCodec archFailAgent).2 ∧
    Event.execCmd (prometheusRemoveResourceTemplate (snapshotSrcPath collectorCC "snap-1"))
        ∈ (Collect collectorCC okCodec archFailAgent).2 := by
  have h := Collect_archive_failure_contract collectorCC okCodec archFailAgent "snap-1"
      (by rfl) (by rfl) (by rfl)
  have h1 := h.1 ("Failed to create snapshot tarball: " ++ "tar: Permission denied") (by rfl)
  exact ⟨h1.1, h1.2 temporalSnapshotTarballPath "/local/out/snapshot", h.2⟩

/-- Claim C5: once the run reaches the transfer phase (snapshot created,
and the archive step succeeded if enabled), a failed download with a
successful final cleanup of the transfer resource still yields success,
while a failed final cleanup makes `Collect` return that cleanup error
regardless of the download's outcome (no hypothesis constrains the
transfer). -/
theorem Collect_final_cleanup_decides (c : MetricsCollector) (codec : JsonCodec)
    (agent : SSHCollectingAgent) (snap : String)
    (hc : agent.connect = none)
    (hs : (createSnapshot c codec agent).1 = .ok snap)
    (ht : c.settings.copyCompressed = true →
      (tarballSnapshot agent (snapshotSrcPath c snap) temporalSnapshotTarballPath).1 = .ok ()) :
    ((removeResource agent (if c.settings.copyCompressed then temporalSnapshotTarballPath
        else snapshotSrcPath c snap)).1 = .ok () →
      (Collect c codec agent).1 = .ok ()) ∧
    (∀ e, (removeResource agent (if c.settings.copyCompressed then temporalSnapshotTarballPath
        else snapshotSrcPath c snap)).1 = .error e →
      (Collect c codec agent).1 = .error e) := by
  have hres := Collect_result c codec agent snap hc hs
  cases hcc : c.settings.copyCompressed with
  | true =>
    rw [collectArchive_enabled_ok c agent (snapshotSrcPath c snap) hcc (ht hcc)] at hres
    simp only [collectTransfer_fst] at hres
    constructor
    · intro hrm
      simp at hrm
      rw [hres, hrm]
    · intro e hrm
      simp at hrm
      rw [hres, hrm]
  | false =>
    rw [collectArchive_disabled c agent (snapshotSrcPath c snap) hcc] at hres
    simp only [collectTransfer_fst] at hres
    constructor
    · intro hrm
      simp at hrm
      rw [hres, hrm]
    · intro e hrm
      simp at hrm
      rw [hres, hrm]

/-- Claim C5 witness: on an agent whose directory transfer fails but whose
cleanup succeeds the run returns success; on an agent whose final removal
hits a transport error the run returns the wrapped cleanup error. -/
theorem Collect_final_cleanup_decides_witness :
    (Collect collectorNC okCodec okAgent).1 = .ok () ∧
    (Collect collectorNC okCodec rmFailAgent).1
        = .error ("Failed to remove resource '" ++ snapshotSrcPath collectorNC "snap-1"
            ++ "' (" ++ "connection reset" ++ ")") := by
  constructor
  · exact (Collect_final_cleanup_decides collectorNC okCodec okAgent "snap-1"
      (by rfl) (by rfl) (fun h => Bool.noConfusion h)).1 (by rfl)
  · exact (Collect_final_cleanup_decides collectorNC okCodec rmFailAgent "snap-1"
      (by rfl) (by rfl) (fun h => Bool.noConfusion h)).2
      ("Failed to remove resource '" ++ snapshotSrcPath collectorNC "snap-1"
        ++ "' (" ++ "connection reset" ++ ")") (by rfl)

/-- Claim C8: the transfer resource handed to the download and the final
cleanup is the fixed archive path exactly when archiving is enabled and the
archive step succeeds (and the original directory still gets a removal
attempt), while with archiving disabled the download and the final cleanup
act on the original snapshot directory — and on nothing else: every
directory transfer of the run names that directory and the local
destination. -/
theorem Collect_transfer_resource_identity (c : MetricsCollector) (codec : JsonCodec)
    (agent : SSHCollectingAgent) (snap : String)
    (hc : agent.connect = none)
    (hs : (createSnapshot c codec agent).1 = .ok snap) :
    (c.settings.copyCompressed = true →
      (tarballSnapshot agent (snapshotSrcPath c snap) temporalSnapshotTarballPath).1
          = .ok () →
      Event.receiveDir temporalSnapshotTarballPath (filepathJoin [c.path, "snapshot"])
          ∈ (Collect c codec agent).2 ∧
      Event.execCmd (prometheusRemoveResourceTemplate temporalSnapshotTarballPath)
          ∈ (Collect c codec agent).2 ∧
      Event.execCmd (prometheusRemoveResourceTemplate (snapshotSrcPath c snap))
          ∈ (Collect c codec agent).2) ∧
    (c.settings.copyCompressed = false →
      Event.receiveDir (snapshotSrcPath c snap) (filepathJoin [c.path, "snapshot"])
          ∈ (Collect c codec agent).2 ∧
      Event.execCmd (prometheusRemoveResourceTemplate (snapshotSrcPath c snap))
          ∈ (Collect c codec agent).2 ∧
      ∀ s d, Event.receiveDir s d ∈ (Collect c codec agent).2 →
        s = snapshotSrcPath c snap ∧ d = filepathJoin [c.path, "snapshot"]) := by
  have htr := Collect_trace c codec agent snap hc hs
  constructor
  · intro hcc ht
    rw [collectArchive_enabled_ok c agent (snapshotSrcPath c snap) hcc ht] at htr
    simp only at htr
    have h1 := (collectTransfer_receiveDir c agent "snapshot tarball" temporalSnapshotTarballPath).1
    have h2 := (collectTransfer_receiveDir c agent "snapshot tarball" temporalSnapshotTarballPath).2.1
    have h3 := collectArchive_enabled_remove_event c agent (snapshotSrcPath c snap) hcc
    rw [htr]
    refine ⟨?_, ?_, ?_⟩ <;> · simp only [List.mem_append]; tauto
  · intro hcc
    rw [collectArchive_disabled c agent (snapshotSrcPath c snap) hcc] at htr
    simp only [List.append_nil] at htr
    have h1 := (collectTransfer_receiveDir c agent "snapshot" (snapshotSrcPath c snap)).1
    have h2 := (collectTransfer_receiveDir c agent "snapshot" (snapshotSrcPath c snap)).2.1
    refine ⟨?_, ?_, ?_⟩
    · rw [htr]; simp only [List.mem_append]; tauto
    · rw [htr]; simp only [List.mem_append]; tauto
    · intro s d hm
      rw [htr] at hm
      have n1 := createSnapshot_no_receiveDir c codec agent s d
      have n2 := lightenPhaseEvents_no_receiveDir c codec agent (snapshotSrcPath c snap) s d
      have hu := (collectTransfer_receiveDir c agent "snapshot" (snapshotSrcPath c snap)).2.2 s d
      simp at hm
      tauto

/-- Claim C8 witness: with archiving enabled and a successful archive the
run transfers the fixed tarball path; with archiving disabled it transfers
and finally removes the snapshot directory itself. -/
theorem Collect_transfer_resource_identity_witness :
    Event.receiveDir temporalSnapshotTarballPath (filepathJoin [collectorCC.path, "snapshot"])
        ∈ (Collect collectorCC okCodec okAgent).2 ∧
    Event.receiveDir (snapshotSrcPath collectorNC "snap-1")
        (filepathJoin [collectorNC.path, "snapshot"])
        ∈ (Collect collectorNC okCodec okAgent).2 ∧
    Event.execCmd (prometheusRemoveResourceTemplate (snapshotSrcPath collectorNC "snap-1"))
        ∈ (Collect collectorNC okCodec okAgent).2 := by
  refine ⟨?_, ?_, ?_⟩
  · exact ((Collect_transfer_resource_identity collectorCC okCodec okAgent "snap-1"
      (by rfl) (by rfl)).1 (by rfl) (by rfl)).1
  · exact ((Collect_transfer_resource_identity collectorNC okCodec okAgent "snap-1"
      (by rfl) (by rfl)).2 (by rfl)).1
  · exact ((Collect_transfer_resource_identity collectorNC okCodec okAgent "snap-1"
      (by rfl) (by rfl)).2 (by rfl)).2.1

/-- Claim C10: a snapshot-creation response that is valid JSON with status
`success` but an absent or empty `data.name` makes `createSnapshot` return
the empty string with no error, and the run then lightens, transfers and
removes the snapshots root directory `<data-root>/snapshots` itself (the
empty path element vanishes in the join). -/
theorem Collect_empty_snapshot_name (c : MetricsCollector) (codec : JsonCodec)
    (agent : SSHCollectingAgent) (r : ExecResult) (resp : PrometheusSnapshotResponse)
    (hc : agent.connect = none)
    (hx : agent.executeCommand (prometheusCreateSnapshotTemplate c.settings.prometheus.port)
        = .ok r)
    (hserr : r.serr.length = 0)
    (hj : codec.unmarshalSnapshotResponse r.sout = .ok resp)
    (hst : resp.status = "success")
    (hname : resp.data.name = "")
    (hcc : c.settings.copyCompressed = false) :
    (createSnapshot c codec agent).1 = .ok "" ∧
    snapshotSrcPath c ""
        = filepathJoin [c.settings.prometheus.dataPath, prometheusSnapshotFolder] ∧
    Event.execCmd (getSnapshotBlockListTemplate (snapshotSrcPath c ""))
        ∈ (Collect c codec agent).2 ∧
    Event.receiveDir (snapshotSrcPath c "") (filepathJoin [c.path, "snapshot"])
        ∈ (Collect c codec agent).2 ∧
    Event.execCmd (prometheusRemoveResourceTemplate (snapshotSrcPath c ""))
        ∈ (Collect c codec agent).2 := by
  have hcs : (createSnapshot c codec agent).1 = .ok "" := by
    simp [createSnapshot, hx, hserr, hj, hst, prometheusSnapshotSuccess, hname]
  have htr := Collect_trace c codec agent "" hc hcs
  rw [collectArchive_disabled c agent (snapshotSrcPath c "") hcc] at htr
  simp only [List.append_nil] at htr
  refine ⟨hcs, ?_, ?_, ?_, ?_⟩
  · simp [snapshotSrcPath, filepathJoin, List.filter]
  · have h1 := lightenPhase_listing_event c codec agent (snapshotSrcPath c "")
    rw [htr]; simp only [List.mem_append]; tauto
  · have h1 := (collectTransfer_receiveDir c agent "snapshot" (snapshotSrcPath c "")).1
    rw [htr]; simp only [List.mem_append]; tauto
  · have h1 := (collectTransfer_receiveDir c agent "snapshot" (snapshotSrcPath c "")).2.1
    rw [htr]; simp only [List.mem_append]; tauto

/-- Claim C10 witness: on an agent answering with status `success` and an
empty name, the run's trace lists, transfers and removes
`/var/data/snapshots` itself. -/
theorem Collect_empty_snapshot_name_witness :
    (createSnapshot collectorNC okCodec emptyNameAgent).1 = .ok "" ∧
    snapshotSrcPath collectorNC ""
        = filepathJoin [collectorNC.settings.prometheus.dataPath, prometheusSnapshotFolder] ∧
    Event.execCmd (getSnapshotBlockListTemplate (snapshotSrcPath collectorNC ""))
        ∈ (Collect collectorNC okCodec emptyNameAgent).2 ∧
    Event.receiveDir (snapshotSrcPath collectorNC "")
        (filepathJoin [collectorNC.path, "snapshot"])
        ∈ (Collect collectorNC okCodec emptyNameAgent).2 := by
  have h := Collect_empty_snapshot_name collectorNC okCodec emptyNameAgent
      ⟨"resp-empty", ""⟩ ⟨"success", ⟨""⟩, ""⟩
      (by rfl) (by rfl) (by rfl) (by rfl) (by rfl) (by rfl) (by rfl)
  exact ⟨h.1, h.2.1, h.2.2.1, h.2.2.2.1⟩

/-- Claim C6: `createSnapshot` fails on non-empty standard error, on
unparseable standard output, and on any parsed status other than the
literal `success` — in that case the error carries the remote status and
error text — and on success it returns the parsed `data.name`; in the
documented scenario the rejection response aborts the run with an error
containing `out of space`. -/
theorem createSnapshot_response_contract (c : MetricsCollector) (codec : JsonCodec)
    (agent : SSHCollectingAgent) :
    (∀ r, agent.executeCommand
          (prometheusCreateSnapshotTemplate c.settings.prometheus.port) = .ok r →
      (0 < r.serr.length →
        (createSnapshot c codec agent).1
          = .error ("Failed to create prometheus snapshot: " ++ r.serr)) ∧
      (r.serr.length = 0 →
        (∀ e, codec.unmarshalSnapshotResponse r.sout = .error e →
          (createSnapshot c codec agent).1
            = .error ("Failed to unmarshal snapshot command output (" ++ e ++ ")")) ∧
        (∀ resp, codec.unmarshalSnapshotResponse r.sout = .ok resp →
          (resp.status ≠ "success" →
            (createSnapshot c codec agent).1
              = .error ("Failed to create prometheus snapshot (status: "
                  ++ resp.status ++ " '" ++ resp.error ++ "')")) ∧
          (resp.status = "success" →
            (createSnapshot c codec agent).1 = .ok resp.data.name)))) ∧
    ((createSnapshot rejectCollector rejectCodec rejectAgent).1
        = .error "Failed to create prometheus snapshot (status: error 'out of space')" ∧
      (∃ pre post,
        "Failed to create prometheus snapshot (status: error 'out of space')"
          = pre ++ "out of space" ++ post) ∧
      (Collect rejectCollector rejectCodec rejectAgent).1
        = .error "Failed to create prometheus snapshot (status: error 'out of space')") := by
  constructor
  · intro r hx
    constructor
    · intro hserr
      simp [createSnapshot, hx, hserr]
    · intro hserr
      constructor
      · intro e hj
        simp [createSnapshot, hx, hserr, hj]
      · intro resp hj
        constructor
        · intro hst
          simp [createSnapshot, hx, hserr, hj, prometheusSnapshotSuccess, hst]
        · intro hst
          simp [createSnapshot, hx, hserr, hj, prometheusSnapshotSuccess, hst]
  · exact ⟨by rfl,
      ⟨"Failed to create prometheus snapshot (status: error '", "')", by rfl⟩, by rfl⟩

/-- Claim C6 witness: a command writing to standard error fails even with
parseable output available, unparseable output fails with the parse error,
and a success-status response yields the parsed name. -/
theorem createSnapshot_response_contract_witness :
    (createSnapshot rejectCollector okCodec agentStderrOnly).1
        = .error ("Failed to create prometheus snapshot: " ++ "rm: permission denied") ∧
    (createSnapshot rejectCollector okCodec rejectAgent).1
        = .error ("Failed to unmarshal snapshot command output ("
            ++ "unexpected end of JSON input" ++ ")") ∧
    (createSnapshot collectorNC okCodec okAgent).1 = .ok "snap-1" := by
  refine ⟨?_, ?_, ?_⟩
  · exact ((createSnapshot_response_contract rejectCollector okCodec agentStderrOnly).1
      ⟨"", "rm: permission denied"⟩ (by rfl)).1 (by decide)
  · exact (((createSnapshot_response_contract rejectCollector okCodec rejectAgent).1
      ⟨rejectResponseText, ""⟩ (by rfl)).2 (by rfl)).1
      "unexpected end of JSON input" (by rfl)
  · exact ((((createSnapshot_response_contract collectorNC okCodec okAgent).1
      ⟨"resp-ok", ""⟩ (by rfl)).2 (by rfl)).2 ⟨"success", ⟨"snap-1"⟩, ""⟩ (by rfl)).2 (by rfl)

/-- Claim C3 counterexample: `removeResource` discards the remote command's
standard error (`_, _, err := agent.ExecuteCommand(...)` in the source), so
a remove whose command writes a non-empty standard error but reports no
transport error succeeds, contradicting the claim that non-empty standard
error is a failure. -/
theorem removeResource_stderr_ignored_cex :
    agentStderrOnly.executeCommand (prometheusRemoveResourceTemplate "/var/data/snapshots/s1")
        = .ok ⟨"", "rm: permission denied"⟩ ∧
    0 < ("rm: permission denied").length ∧
    (removeResource agentStderrOnly "/var/data/snapshots/s1").1 = .ok () :=
  ⟨rfl, by decide, rfl⟩

/-- Claim C3 (amended): `removeResource` fails — with an error wrapping the
path — exactly when the Remote Agent reports a transport error; the
command's output streams, standard error included, are ignored. -/
theorem removeResource_transport_error_only (agent : SSHCollectingAgent) (path : String) :
    (∀ e, agent.executeCommand (prometheusRemoveResourceTemplate path) = .error e →
      (removeResource agent path).1
        = .error ("Failed to remove resource '" ++ path ++ "' (" ++ e ++ ")")) ∧
    (∀ r, agent.executeCommand (prometheusRemoveResourceTemplate path) = .ok r →
      (removeResource agent path).1 = .ok ()) := by
  constructor
  · intro e h
    simp [removeResource, h]
  · intro r h
    simp [removeResource, h]

/-- Claim C3 (amended) witness: a transport error is wrapped with the path;
a transport success is a success whatever the streams hold. -/
theorem removeResource_transport_error_only_witness :
    (removeResource agentTransportFail "/tmp/x").1
        = .error ("Failed to remove resource '" ++ "/tmp/x" ++ "' ("
            ++ "connection reset" ++ ")") ∧
    (removeResource agentStderrOnly "/tmp/x").1 = .ok () :=
  ⟨(removeResource_transport_error_only agentTransportFail "/tmp/x").1
      "connection reset" (by rfl),
   (removeResource_transport_error_only agentStderrOnly "/tmp/x").2
      ⟨"", "rm: permission denied"⟩ (by rfl)⟩

/-- Claim C9: the conversion `time.Unix(ms/1000, (ms%1000)*1000000).UTC()`
maps epoch milliseconds to the UTC instant of exactly `ms * 1000000`
nanoseconds since the epoch, for both bounds of any block metadata —
millisecond precision is preserved. -/
theorem blockTimestamp_millisecond_exact (md : blockMetadata) :
    blockTimestamp md.minTime = md.minTime * 1000000 ∧
    blockTimestamp md.maxTime = md.maxTime * 1000000 := by
  constructor
  · unfold blockTimestamp
    linear_combination 1000000 * Int.tdiv_add_tmod md.minTime 1000
  · unfold blockTimestamp
    linear_combination 1000000 * Int.tdiv_add_tmod md.maxTime 1000
